import Mathlib

/-
A shallow embedding, in Lean 4, of the Dalvik thread/stack dump
reconstruction script `src/android-hacks/jbt.py`.

Target memory is modelled as a bundle of total lookup functions, one per
structure kind the script casts addresses to (struct Thread, StackSaveArea,
Method, ClassObject, Monitor, Object, the managed java.lang.Thread /
String / array objects, the bytecode stream, and the per-frame register
array).  Address 0 is the null pointer.  Every gdb read the script performs
is a pure lookup in this bundle; the one read the script wraps in a
try/except (the `sourceFile` member, jbt.py line 264) is modelled as an
`Option` so the caught-and-ignored failure is representable.

Python exceptions raised by the script (JavaBackTraceError, AssertionError,
IndexError, UnicodeDecodeError) become `Except JbtError` results; an
uncaught exception is an `Except.error` value that propagates exactly where
the Python exception would.  The unbounded `while` loops of the script are
given an explicit fuel argument; exhausting the fuel (`JbtError.outOfFuel`)
models a walk that is still running after that many iterations.
-/

namespace Jbt

/-- Errors: each constructor models one Python exception the script can
raise (or, for `outOfFuel`, the fuel instrumentation of an unbounded loop). -/
inductive JbtError where
  /-- `assert (offset + length <= chars["length"])` failing in
  `createCstrFromString` (jbt.py line 127). -/
  | boundsError
  /-- `JavaBackTraceError("wrong currentPc value")` (jbt.py line 220). -/
  | wrongInstruction
  /-- `JavaBackTraceError("invalid register ...")` (jbt.py line 224). -/
  | invalidRegister
  /-- `JavaBackTraceError("invalid object ...")` (jbt.py line 229). -/
  | invalidObject
  /-- Python IndexError from `out[0]` on an empty string in
  `humanReadableDescriptor` (jbt.py line 140). -/
  | indexError
  /-- `assert thread_addr` failing in `Thread.__init__` (jbt.py line 160). -/
  | nullThread
  /-- Python UnicodeDecodeError from `.decode("utf-16")` (jbt.py line 134). -/
  | unicodeError
  /-- The fuel instrumentation ran out: the modelled loop was still running
  after `fuel` iterations. -/
  | outOfFuel
  deriving DecidableEq, Repr

/-- struct Object: lock word and class pointer. -/
structure ObjS where
  lock : Nat
  clazz : Nat
  deriving Repr

/-- struct Monitor: owning thread and associated object. -/
structure MonitorS where
  owner : Nat
  obj : Nat
  deriving Repr

/-- struct Thread (the VM's native thread record). -/
structure ThreadS where
  threadId : Nat
  systemTid : Nat
  status : Int
  threadObj : Nat
  hasInterpSave : Bool
  interpSaveCurFrame : Nat
  curFrameOld : Nat
  waitMonitor : Nat
  next : Nat
  deriving Repr

/-- StackSaveArea, the record sitting immediately below a frame pointer
(`SAVEAREA_FROM_FP`); indexed here by the frame pointer it belongs to. -/
structure SaveAreaS where
  method : Nat
  prevFrame : Nat
  currentPc : Nat
  deriving Repr

/-- struct Method. -/
structure MethodS where
  clazz : Nat
  name : String
  accessFlags : Nat
  registersSize : Nat
  deriving Repr

/-- ClassObject: descriptor string plus the `sourceFile` member whose gdb
read may fail (`none` models the gdb.MemoryError the script catches). -/
structure ClassS where
  descriptor : String
  sourceFile : Option String
  deriving Repr

/-- The managed java.lang.Thread object's fields the script reads through
`getFieldP` (offJavaLangThread_name / _daemon / _priority). -/
structure JThreadObjS where
  nameStr : Nat
  daemon : Nat
  priority : Int
  deriving Repr

/-- The managed String object's fields (STRING_FIELDOFF_COUNT / _OFFSET /
_VALUE read as Int, Int, Object). -/
structure StringObjS where
  count : Int
  offset : Int
  value : Nat
  deriving Repr

/-- ArrayObject: `length` member plus the u2 contents, modelled as a total
function on Int indices (a gdb pointer read is possible at any offset,
including before the array). -/
structure ArrayObjS where
  length : Int
  contents : Int → Nat

/-- The target process memory plus the gDvm globals the script reads. -/
structure Mem where
  objects : Nat → ObjS
  monitors : Nat → MonitorS
  threads : Nat → ThreadS
  saveAreas : Nat → SaveAreaS
  methods : Nat → MethodS
  classes : Nat → ClassS
  jthreadObjs : Nat → JThreadObjS
  stringObjs : Nat → StringObjS
  arrays : Nat → ArrayObjS
  frameRegs : Nat → Nat → Nat
  insns : Nat → Nat
  vmData : Nat → Nat
  threadList : Nat
  classJavaLangClass : Nat
  classJavaLangVMThread : Nat

/-! ### Lock word decoding (Dvm._lockOwner, jbt.py lines 85-97) -/

def LW_SHAPE_MASK : Nat := 0x1
def LW_SHAPE_THIN : Nat := 0
def LW_LOCK_OWNER_MASK : Nat := 0xffff
def LW_LOCK_OWNER_SHIFT : Nat := 3
def LW_HASH_STATE_MASK : Nat := 0x3
def LW_HASH_STATE_SHIFT : Nat := 1

/-- The monitor address a fat lock word points to:
`lock & ~((LW_HASH_STATE_MASK << LW_HASH_STATE_SHIFT) | LW_SHAPE_MASK)`,
the C complement taken at the u4 width of the lock word. -/
def monitorAddrOfLock (lock : Nat) : Nat :=
  lock &&& ((2 ^ 32 - 1) ^^^ ((LW_HASH_STATE_MASK <<< LW_HASH_STATE_SHIFT) ||| LW_SHAPE_MASK))

/-- Body of `Dvm._lockOwner` on a lock word already fetched from the
object: thin locks embed the owner thread id, fat locks dereference the
monitor and read its owner's threadId; a null owner leaves tid = 0. -/
def lockOwnerOfWord (mem : Mem) (lock : Nat) : Nat :=
  if lock &&& LW_SHAPE_MASK = LW_SHAPE_THIN then
    (lock >>> LW_LOCK_OWNER_SHIFT) &&& LW_LOCK_OWNER_MASK
  else
    let owner := (mem.monitors (monitorAddrOfLock lock)).owner
    if owner ≠ 0 then (mem.threads owner).threadId else 0

/-- `Dvm._lockOwner`: reads `obj["lock"]` and decodes it. -/
def lockOwner (mem : Mem) (obj : Nat) : Nat :=
  lockOwnerOfWord mem (mem.objects obj).lock

/-- `Dvm.getThreadbyThreadId`: walk gDvm.threadList following `next` until
the thread id matches; `none` when the chain ends (the script returns
None).  The extra fuel argument bounds the modelled unbounded walk. -/
def getThreadByThreadIdAux (mem : Mem) (tid : Nat) : Nat → Nat → Option Nat
  | fuel, addr =>
    if addr = 0 then none
    else
      match fuel with
      | 0 => none
      | fuel + 1 =>
        if (mem.threads addr).threadId = tid then some addr
        else getThreadByThreadIdAux mem tid fuel (mem.threads addr).next

def getThreadByThreadId (mem : Mem) (fuel : Nat) (tid : Nat) : Option Nat :=
  getThreadByThreadIdAux mem tid fuel mem.threadList

/-- `Dvm.getObjectLockHolder`: resolve the owner tid; a tid of 0 means no
owner and yields `none` without walking the thread list. -/
def getObjectLockHolder (mem : Mem) (fuel : Nat) (obj : Nat) : Option Nat :=
  let tid := lockOwner mem obj
  if tid ≠ 0 then getThreadByThreadId mem fuel tid else none

/-! ### UTF-16 decoding (`"".join(utf16_list).decode("utf-16")`, jbt.py line 134) -/

/-- Strict UTF-16 decode of a sequence of 16-bit code units: BMP units
become the corresponding character, a high surrogate must be followed by a
low surrogate (else `none`, modelling Python's UnicodeDecodeError), and a
lone low surrogate is also an error. -/
def utf16DecodeAux : List Nat → Option (List Char)
  | [] => some []
  | [u] =>
    if u < 0xD800 ∨ 0xE000 ≤ u then some [Char.ofNat u] else none
  | u :: v :: rest =>
    if u < 0xD800 ∨ 0xE000 ≤ u then
      (utf16DecodeAux (v :: rest)).map (Char.ofNat u :: ·)
    else if u < 0xDC00 ∧ 0xDC00 ≤ v ∧ v < 0xE000 then
      (utf16DecodeAux rest).map
        (Char.ofNat (0x10000 + (u - 0xD800) * 0x400 + (v - 0xDC00)) :: ·)
    else none

def utf16Decode (units : List Nat) : Option String :=
  (utf16DecodeAux units).map List.asString

/-! ### String decoding (Dvm.createCstrFromString, jbt.py lines 118-134) -/

/-- The `for i in range(0, length)` loop of `createCstrFromString`: read
`n` consecutive u2 values through the moving `data` pointer, which starts
at `contents + offset` and is incremented after each read. -/
def readU16s (contents : Int → Nat) (data : Int) : Nat → List Nat
  | 0 => []
  | n + 1 => contents data :: readU16s contents (data + 1) n

/-- `Dvm.createCstrFromString`: a null String reference yields `""`;
otherwise read count/offset/value, assert
`offset + length <= chars["length"]` (failure modelled as
`JbtError.boundsError`, producing no partial text), read `length` code
units starting at `offset`, and UTF-16-decode them (decode failure is
Python's UnicodeDecodeError). -/
def createCstrFromString (mem : Mem) (s : Nat) : Except JbtError String :=
  if s = 0 then .ok ""
  else
    let so := mem.stringObjs s
    let arr := mem.arrays so.value
    if so.offset + so.count ≤ arr.length then
      match utf16Decode (readU16s arr.contents so.offset so.count.toNat) with
      | some text => .ok text
      | none => .error .unicodeError
    else .error .boundsError

/-! ### Descriptor formatting (Dvm.humanReadableDescriptor, jbt.py lines 136-143) -/

/-- Python's `out.replace('/', '.')` for the single-character pattern:
replace each `/` by `.`. -/
def replaceSlashes (s : String) : String :=
  String.mk (s.data.map (fun c => if c = '/' then '.' else c))

/-- `Dvm.humanReadableDescriptor`: drop the last character of the input
unconditionally (`desc[:-1]`), then inspect `out[0]` — which raises
IndexError (here `none`) when the remainder is empty — strip a leading
`L`, and replace `/` with `.`. -/
def humanReadableDescriptor (desc : String) : Option String :=
  match desc.data.dropLast with
  | [] => none
  | c :: rest =>
    some (replaceSlashes (String.mk (if c = 'L' then rest else c :: rest)))

/-- `Dvm.humanReadableType` on a value with a `clazz` member whose class
pointer has already been read (the script duck-types `obj["clazz"]`): a
null class renders as `(raw)`, otherwise the class descriptor is
humanized.  `none` is the propagating IndexError of the descriptor
formatter. -/
def humanReadableTypeOfClazz (mem : Mem) (clazz : Nat) : Option String :=
  if clazz = 0 then some "(raw)"
  else humanReadableDescriptor (mem.classes clazz).descriptor

/-- `Dvm.humanReadableType` applied to an Object. -/
def humanReadableTypeOfObj (mem : Mem) (obj : Nat) : Option String :=
  humanReadableTypeOfClazz mem (mem.objects obj).clazz

/-- `Dvm.humanReadableType` applied to a Method (the `__str__` loop passes
`jmethodp`). -/
def humanReadableTypeOfMethod (mem : Mem) (m : Nat) : Option String :=
  humanReadableTypeOfClazz mem (mem.methods m).clazz

/-! ### Thread basics (class Thread, jbt.py lines 154-192) -/

/-- `Thread.statusList`. -/
def statusList : List String :=
  ["ZOMBIE", "RUNNABLE", "TIMED_WAIT", "MONITOR", "WAIT",
   "INITIALIZING", "STARTING", "NATIVE", "VMWAIT", "SUSPENDED"]

/-- `Thread.status`: out-of-range raw status values render as UNKNOWN. -/
def threadStatus (mem : Mem) (t : Nat) : String :=
  let status := (mem.threads t).status
  if status < 0 ∨ status ≥ statusList.length then "UNKNOWN"
  else statusList.getD status.toNat "UNKNOWN"

/-- `Thread.curFrame`: newer VMs store the frame pointer inside
`interpSave`, older ones directly in the Thread record. -/
def curFrame (mem : Mem) (t : Nat) : Nat :=
  if (mem.threads t).hasInterpSave then (mem.threads t).interpSaveCurFrame
  else (mem.threads t).curFrameOld

/-- `Thread.name`: read the managed Thread object's name String reference
and decode it. -/
def threadNameStr (mem : Mem) (t : Nat) : Except JbtError String :=
  createCstrFromString mem (mem.jthreadObjs (mem.threads t).threadObj).nameStr

/-- `Dvm.threadFromThreadObject`: read the VMThread object's `vmData`
field and construct a Thread from that address; `Thread.__init__` asserts
the address is non-null. -/
def threadFromThreadObject (mem : Mem) (obj : Nat) : Except JbtError Nat :=
  let addr := mem.vmData obj
  if addr = 0 then .error .nullThread else .ok addr

/-- Rendering of a pointer by Python's `"%s" % value` on a gdb pointer
value: hexadecimal with a 0x prefix. -/
def ptrStr (a : Nat) : String :=
  "0x" ++ String.mk (Nat.toDigits 16 a)

/-! ### Monitor-enter extraction
(ThreadStackTrace._extractMonitorEnterObject, jbt.py lines 212-232) -/

/-- `ThreadStackTrace._extractMonitorEnterObject`: take the topmost
frame's save area, dereference its `currentPc` to the raw instruction
word, require the low byte to be 0x1d (OP_MONITOR_ENTER), take the source
register from the bits above the low byte, reject it only when it exceeds
`method["registersSize"]`, read that u4 register slot of the frame, and
require a non-null, 8-byte-aligned object reference; finally resolve the
lock holder. -/
def extractMonitorEnterObject (mem : Mem) (fuel : Nat) (t : Nat) :
    Except JbtError (Nat × Option Nat) :=
  let jfp := curFrame mem t
  let saveArea := mem.saveAreas jfp
  let method := mem.methods saveArea.method
  let currentPc := mem.insns saveArea.currentPc
  if currentPc &&& 0xff ≠ 0x1d then .error .wrongInstruction
  else
    let reg := currentPc >>> 8
    if reg > method.registersSize then .error .invalidRegister
    else
      let obj := mem.frameRegs jfp reg
      if obj = 0 ∨ obj &&& 7 ≠ 0 then .error .invalidObject
      else .ok (obj, getObjectLockHolder mem fuel obj)

/-! ### Wait/lock annotation (ThreadStackTrace._waitMessage, jbt.py lines 198-206) -/

/-- The conditional `(a <Type>)` fragment of `_waitMessage`: present
exactly when the object is non-null and its class differs from
gDvm.classJavaLangClass. -/
def waitMessageType (mem : Mem) (obj : Nat) : Except JbtError String :=
  if obj ≠ 0 ∧ (mem.objects obj).clazz ≠ mem.classJavaLangClass then
    match humanReadableTypeOfObj mem obj with
    | some ty => .ok ("(a " ++ ty ++ ")")
    | none => .error .indexError
  else .ok ""

/-- The conditional `held by tid=N (name)` fragment of `_waitMessage`,
present when an owning/joined thread was resolved; resolving the name can
fail (String decode). -/
def heldBySuffix (mem : Mem) : Option Nat → Except JbtError String
  | some t =>
    (threadNameStr mem t).map
      (fun nm => " held by tid=" ++ toString (mem.threads t).threadId ++ " (" ++ nm ++ ")")
  | none => .ok ""

/-- `ThreadStackTrace._waitMessage`: the full annotation line. -/
def waitMessage (mem : Mem) (detail : String) (obj : Nat) (thr : Option Nat) :
    Except JbtError String := do
  let ty ← waitMessageType mem obj
  let hb ← heldBySuffix mem thr
  .ok ("  - waiting " ++ detail ++ " <" ++ ptrStr obj ++ "> " ++ ty ++ hb ++ "\n")

/-! ### Per-thread dump (ThreadStackTrace.__str__, jbt.py lines 234-291) -/

/-- The annotation `__str__` computes right after the first trace line
(jbt.py lines 271-283): for WAIT/TIMED_WAIT follow
waitMonitor → obj, resolve a joined thread when the object's class is
gDvm.classJavaLangVMThread; for MONITOR run the monitor-enter extraction
(whose JavaBackTraceError propagates uncaught); other states add
nothing. -/
def firstFrameLockInfo (mem : Mem) (fuel : Nat) (t : Nat) : Except JbtError String :=
  let st := threadStatus mem t
  if st = "WAIT" ∨ st = "TIMED_WAIT" then
    let mon := (mem.threads t).waitMonitor
    if mon ≠ 0 then
      let obj := (mem.monitors mon).obj
      if obj ≠ 0 then do
        let joinThread ←
          if (mem.objects obj).clazz = mem.classJavaLangVMThread then
            (threadFromThreadObject mem obj).map some
          else .ok none
        waitMessage mem "on" obj joinThread
      else .ok ""
    else .ok ""
  else if st = "MONITOR" then do
    let (obj, owner) ← extractMonitorEnterObject mem fuel t
    waitMessage mem "to lock" obj owner
  else .ok ""

/-- The two header lines of a thread block (jbt.py lines 239-248):
name, optional " deamon" marker, priority, thread id, status, then
sysTid and the thread pointer. -/
def threadHeader (mem : Mem) (t : Nat) : Except JbtError String := do
  let th := mem.threads t
  let jobj := mem.jthreadObjs th.threadObj
  let deamonStr := if jobj.daemon ≠ 0 then " deamon" else ""
  let nm ← threadNameStr mem t
  .ok ("\"" ++ nm ++ "\"" ++ deamonStr ++ " prio=" ++ toString jobj.priority
       ++ " tid=" ++ toString th.threadId ++ " " ++ threadStatus mem t
       ++ "\n  | sysTid=" ++ toString th.systemTid ++ " self=" ++ ptrStr t ++ "\n")

/-- One `  at Class.method (source)` trace line (jbt.py lines 255-268):
`(Native method)` when accessFlags has 0x100, otherwise the class's
sourceFile in parentheses — whose read failure is caught and ignored
(`none` adds no suffix).  `none` overall is the IndexError of the
descriptor formatter, which `__str__` does not catch. -/
def frameLine (mem : Mem) (methodAddr : Nat) : Option String :=
  (humanReadableTypeOfMethod mem methodAddr).map (fun ty =>
    let m := mem.methods methodAddr
    let line := "  at " ++ ty ++ "." ++ m.name
    let line :=
      if m.accessFlags &&& 0x100 ≠ 0 then line ++ " (Native method)"
      else
        match (mem.classes m.clazz).sourceFile with
        | some sf => line ++ " (" ++ sf ++ ")"
        | none => line
    line ++ "\n")

/-- The `while jfp:` loop of `__str__` (jbt.py lines 251-289), with fuel:
stop with the accumulated text when the frame pointer or the frame's
method is null; otherwise append the trace line, after the first line
append the wait/lock annotation, and follow `prevFrame`.  The script
imposes no bound of its own, so `outOfFuel` marks a walk still running
after `fuel` frames. -/
def stackLines (mem : Mem) (tfuel : Nat) (t : Nat) :
    Nat → Nat → Bool → String → Except JbtError String
  | fuel, jfp, first, acc =>
    if jfp = 0 then .ok acc
    else
      match fuel with
      | 0 => .error .outOfFuel
      | fuel + 1 =>
        let saveArea := mem.saveAreas jfp
        if saveArea.method ≠ 0 then
          match frameLine mem saveArea.method with
          | none => .error .indexError
          | some line =>
            if first then
              match firstFrameLockInfo mem tfuel t with
              | .error e => .error e
              | .ok ann =>
                stackLines mem tfuel t fuel saveArea.prevFrame false (acc ++ line ++ ann)
            else
              stackLines mem tfuel t fuel saveArea.prevFrame false (acc ++ line)
        else .ok acc

/-- `ThreadStackTrace.__str__`: header then the frame walk, starting at
the thread's current frame with `first = True`. -/
def threadStackTraceStr (mem : Mem) (fuel tfuel : Nat) (t : Nat) :
    Except JbtError String := do
  let hdr ← threadHeader mem t
  stackLines mem tfuel t fuel (curFrame mem t) true hdr

/-- The `while thread_addr:` loop of `AllThreadsStackTrace.__str__`
(jbt.py lines 293-303), with fuel for the unbounded list walk. -/
def allThreadsAux (mem : Mem) (fuel : Nat) : Nat → Nat → String → Except JbtError String
  | lfuel, addr, acc =>
    if addr = 0 then .ok acc
    else
      match lfuel with
      | 0 => .error .outOfFuel
      | lf + 1 => do
        let s ← threadStackTraceStr mem fuel fuel addr
        allThreadsAux mem fuel lf (mem.threads addr).next (acc ++ s ++ "\n")

/-- `AllThreadsStackTrace.__str__`: dump every thread on gDvm.threadList
in list order, blocks separated by a blank line; any JavaBackTraceError
raised inside one thread's block propagates and aborts the whole dump. -/
def allThreadsStackTrace (mem : Mem) (fuel lfuel : Nat) : Except JbtError String :=
  allThreadsAux mem fuel lfuel mem.threadList ""

/-! ### Concrete memories for the closed test theorems

The unused portions of each concrete memory are all-zero records; only the
addresses a test actually dereferences carry data. -/

def zObj : ObjS := ⟨0, 0⟩
def zMon : MonitorS := ⟨0, 0⟩
def zThread : ThreadS := ⟨0, 0, 0, 0, false, 0, 0, 0, 0⟩
def zSave : SaveAreaS := ⟨0, 0, 0⟩
def zMethod : MethodS := ⟨0, "", 0, 0⟩
def zClass : ClassS := ⟨"", none⟩
def zJThread : JThreadObjS := ⟨0, 0, 0⟩
def zString : StringObjS := ⟨0, 0, 0⟩
def zArray : ArrayObjS := ⟨0, fun _ => 0⟩

/-- The all-zero memory. -/
def zMem : Mem where
  objects := fun _ => zObj
  monitors := fun _ => zMon
  threads := fun _ => zThread
  saveAreas := fun _ => zSave
  methods := fun _ => zMethod
  classes := fun _ => zClass
  jthreadObjs := fun _ => zJThread
  stringObjs := fun _ => zString
  arrays := fun _ => zArray
  frameRegs := fun _ _ => 0
  insns := fun _ => 0
  vmData := fun _ => 0
  threadList := 0
  classJavaLangClass := 0
  classJavaLangVMThread := 0

/-- Two threads: "main" (tid 1, at address 100) is MONITOR-blocked but its
current instruction word 0x0a0b has low byte 0x0b ≠ 0x1d; "Worker"
(tid 2, at address 110) is RUNNABLE with one healthy native frame. -/
def cxMemC1 : Mem :=
  { zMem with
    threads := fun a =>
      if a = 100 then ⟨1, 11, 3, 200, true, 300, 0, 0, 110⟩
      else if a = 110 then ⟨2, 12, 1, 210, true, 400, 0, 0, 0⟩
      else zThread
    jthreadObjs := fun a =>
      if a = 200 then ⟨500, 0, 5⟩
      else if a = 210 then ⟨510, 0, 5⟩
      else zJThread
    stringObjs := fun a =>
      if a = 500 then ⟨4, 0, 600⟩
      else if a = 510 then ⟨6, 0, 610⟩
      else zString
    arrays := fun a =>
      if a = 600 then ⟨4, fun i => if i = 0 then 109 else if i = 1 then 97
                                   else if i = 2 then 105 else if i = 3 then 110 else 0⟩
      else if a = 610 then ⟨6, fun i => if i = 0 then 87 else if i = 1 then 111
                                        else if i = 2 then 114 else if i = 3 then 107
                                        else if i = 4 then 101 else if i = 5 then 114 else 0⟩
      else zArray
    saveAreas := fun a =>
      if a = 300 then ⟨700, 0, 800⟩
      else if a = 400 then ⟨710, 0, 0⟩
      else zSave
    methods := fun a =>
      if a = 700 then ⟨900, "run", 0, 3⟩
      else if a = 710 then ⟨900, "work", 0x100, 3⟩
      else zMethod
    classes := fun a => if a = 900 then ⟨"LMain;", some "Main.java"⟩ else zClass
    insns := fun a => if a = 800 then 0x0a0b else 0
    threadList := 100
    classJavaLangClass := 1000
    classJavaLangVMThread := 1100 }

/-- One RUNNABLE thread whose frame chain is a 2-cycle: frame 300's save
area links to frame 320 and frame 320's links back to 300, both with a
non-null method. -/
def cyc2Mem : Mem :=
  { zMem with
    threads := fun a => if a = 100 then ⟨1, 11, 1, 200, true, 300, 0, 0, 0⟩ else zThread
    jthreadObjs := fun a => if a = 200 then ⟨500, 0, 5⟩ else zJThread
    stringObjs := fun a => if a = 500 then ⟨1, 0, 600⟩ else zString
    arrays := fun a => if a = 600 then ⟨1, fun i => if i = 0 then 109 else 0⟩ else zArray
    saveAreas := fun a =>
      if a = 300 then ⟨700, 320, 0⟩
      else if a = 320 then ⟨700, 300, 0⟩
      else zSave
    methods := fun a => if a = 700 then ⟨900, "r", 0, 1⟩ else zMethod
    classes := fun a => if a = 900 then ⟨"LM;", none⟩ else zClass
    threadList := 100
    classJavaLangClass := 1000
    classJavaLangVMThread := 1100 }

/-- A MONITOR-blocked thread whose monitor-enter instruction word 0x021d
names register v2 while the method declares registersSize = 2 (valid
registers v0 and v1 only); frame slot 2 holds the 8-byte-aligned non-null
value 4096. -/
def c3Mem : Mem :=
  { zMem with
    threads := fun a => if a = 100 then ⟨1, 11, 3, 200, true, 300, 0, 0, 0⟩ else zThread
    saveAreas := fun a => if a = 300 then ⟨700, 0, 800⟩ else zSave
    methods := fun a => if a = 700 then ⟨900, "run", 0, 2⟩ else zMethod
    classes := fun a => if a = 900 then ⟨"LMain;", some "Main.java"⟩ else zClass
    insns := fun a => if a = 800 then 0x021d else 0
    frameRegs := fun fp r => if fp = 300 ∧ r = 2 then 4096 else 0
    threadList := 100 }

/-- Two managed strings over one 4-element backing array: string 1 reads
units [1, 3) ("Hi"), string 2 claims offset 2, count 3 and so overruns the
array. -/
def c4Mem : Mem :=
  { zMem with
    stringObjs := fun a =>
      if a = 1 then ⟨2, 1, 600⟩
      else if a = 2 then ⟨3, 2, 600⟩
      else zString
    arrays := fun a =>
      if a = 600 then ⟨4, fun i => if i = 1 then 72 else if i = 2 then 105 else 63⟩
      else zArray }

/-- A fat-locked world: monitor 0x2000 is owned by the thread at 0x3000
(tid 7); object 0x4000 carries the fat lock word 0x5001 whose monitor
0x5000 has a null owner. -/
def c6Mem : Mem :=
  { zMem with
    monitors := fun a =>
      if a = 0x2000 then ⟨0x3000, 0⟩
      else if a = 0x5000 then ⟨0, 0⟩
      else zMon
    threads := fun a => if a = 0x3000 then ⟨7, 17, 1, 0, true, 0, 0, 0, 0⟩ else zThread
    objects := fun a => if a = 0x4000 then ⟨0x5001, 0⟩ else zObj }

/-- A WAIT-ing thread (address 100) parked on monitor 0x2000 whose object
0x4000 is an instance of the registered VMThread wrapper class (1100); its
`vmData` names the native thread at address 110 ("W", tid 2).  Object
0x4800 is a plain object of class 1200. -/
def c8Mem : Mem :=
  { zMem with
    threads := fun a =>
      if a = 100 then ⟨1, 11, 4, 200, true, 300, 0, 0x2000, 0⟩
      else if a = 110 then ⟨2, 12, 1, 210, true, 0, 0, 0, 0⟩
      else if a = 120 then ⟨3, 13, 4, 0, true, 0, 0, 0x2100, 0⟩
      else zThread
    jthreadObjs := fun a =>
      if a = 200 then ⟨500, 0, 5⟩
      else if a = 210 then ⟨510, 0, 5⟩
      else zJThread
    stringObjs := fun a =>
      if a = 500 then ⟨1, 0, 600⟩
      else if a = 510 then ⟨1, 0, 610⟩
      else zString
    arrays := fun a =>
      if a = 600 then ⟨1, fun i => if i = 0 then 109 else 0⟩
      else if a = 610 then ⟨1, fun i => if i = 0 then 87 else 0⟩
      else zArray
    monitors := fun a =>
      if a = 0x2000 then ⟨0, 0x4000⟩
      else if a = 0x2100 then ⟨0, 0x4800⟩
      else zMon
    objects := fun a =>
      if a = 0x4000 then ⟨0, 1100⟩
      else if a = 0x4800 then ⟨0, 1200⟩
      else if a = 0x4C00 then ⟨0, 1000⟩
      else zObj
    vmData := fun o => if o = 0x4000 then 110 else 0
    saveAreas := fun a => if a = 300 then ⟨700, 0, 0⟩ else zSave
    methods := fun a => if a = 700 then ⟨900, "run", 0, 3⟩ else zMethod
    classes := fun a =>
      if a = 900 then ⟨"LMain;", some "Main.java"⟩
      else if a = 1000 then ⟨"Ljava/lang/Class;", none⟩
      else if a = 1100 then ⟨"Ljava/lang/VMThread;", none⟩
      else if a = 1200 then ⟨"Lcom/example/Lock;", none⟩
      else zClass
    threadList := 100
    classJavaLangClass := 1000
    classJavaLangVMThread := 1100 }

instance {ε α : Type} [DecidableEq ε] [DecidableEq α] : DecidableEq (Except ε α) := fun x y =>
  match x, y with
  | .ok a, .ok b =>
    if h : a = b then .isTrue (by rw [h]) else .isFalse (by simp [h])
  | .error e, .error f =>
    if h : e = f then .isTrue (by rw [h]) else .isFalse (by simp [h])
  | .ok _, .error _ => .isFalse (by simp)
  | .error _, .ok _ => .isFalse (by simp)

/-! ### Claims -/

/-- C7: the descriptor formatter strips the trailing `;`, strips a leading
`L` if present, and replaces every `/` with `.`; in particular
`humanReadableDescriptor "Ljava/lang/String;" = "java.lang.String"` and
`humanReadableDescriptor "Ljava/lang/Object;" = "java.lang.Object"`
exactly. -/
theorem descriptor_format_spec :
    humanReadableDescriptor "Ljava/lang/String;" = some "java.lang.String" ∧
    humanReadableDescriptor "Ljava/lang/Object;" = some "java.lang.Object" ∧
    (∀ l : List Char,
      humanReadableDescriptor (String.mk (('L' :: l) ++ [';'])) =
        some (String.mk (l.map fun c => if c = '/' then '.' else c))) ∧
    (∀ (c : Char) (l : List Char), c ≠ 'L' →
      humanReadableDescriptor (String.mk ((c :: l) ++ [';'])) =
        some (String.mk ((c :: l).map fun ch => if ch = '/' then '.' else ch))) := by
  refine ⟨by rfl, by rfl, ?_, ?_⟩
  · intro l
    unfold humanReadableDescriptor
    rw [show (String.mk (('L' :: l) ++ [';'])).data = ('L' :: l) ++ [';'] from rfl,
      List.dropLast_concat]
    simp [replaceSlashes]
  · intro c l hc
    unfold humanReadableDescriptor
    rw [show (String.mk ((c :: l) ++ [';'])).data = (c :: l) ++ [';'] from rfl,
      List.dropLast_concat]
    simp [replaceSlashes, hc]

/-- C7 witness: the general clauses applied at `java/lang/Thread` and a
descriptor not starting with `L`. -/
theorem descriptor_format_spec_witness :
    humanReadableDescriptor "Ljava/lang/String;" = some "java.lang.String" ∧
    humanReadableDescriptor
        (String.mk (('L' :: "java/lang/Thread".data) ++ [';'])) = some "java.lang.Thread" ∧
    humanReadableDescriptor (String.mk (('I' :: "xy".data) ++ [';'])) = some "Ixy" := by
  refine ⟨descriptor_format_spec.1, ?_, ?_⟩
  · exact (descriptor_format_spec.2.2.1 "java/lang/Thread".data).trans (by decide)
  · exact (descriptor_format_spec.2.2.2 'I' "xy".data (by decide)).trans (by decide)

/-- C9: the descriptor formatter removes the final character
unconditionally and then indexes the first character of the remainder:
any input of length at most 1 (such as ";") hits the IndexError path
instead of returning a value, and the last character is dropped whether
or not it is `;`. -/
theorem descriptor_format_unchecked :
    humanReadableDescriptor ";" = none ∧
    (∀ desc : String, desc.length ≤ 1 → humanReadableDescriptor desc = none) ∧
    (∀ (l : List Char) (c : Char), c ≠ ';' →
      humanReadableDescriptor (String.mk (l ++ [c])) =
        humanReadableDescriptor (String.mk (l ++ [';']))) := by
  refine ⟨by rfl, ?_, ?_⟩
  · intro desc h
    obtain ⟨data⟩ := desc
    match data with
    | [] => rfl
    | [a] => rfl
    | a :: b :: t => simp [String.length] at h
  · intro l c _
    unfold humanReadableDescriptor
    rw [show (String.mk (l ++ [c])).data = l ++ [c] from rfl,
      show (String.mk (l ++ [';'])).data = l ++ [';'] from rfl,
      List.dropLast_concat, List.dropLast_concat]

/-- C9 witness: the IndexError cases at ";" and "x", and the silent drop
of a non-`;` final character. -/
theorem descriptor_format_unchecked_witness :
    humanReadableDescriptor ";" = none ∧
    humanReadableDescriptor "x" = none ∧
    humanReadableDescriptor (String.mk ("Labc".data ++ ['!'])) =
      humanReadableDescriptor (String.mk ("Labc".data ++ [';'])) := by
  refine ⟨descriptor_format_unchecked.1, ?_, ?_⟩
  · exact descriptor_format_unchecked.2.1 "x" (by decide)
  · exact descriptor_format_unchecked.2.2 "Labc".data '!' (by decide)

/-- C5: for every lock word whose bit 0 is 0 (thin shape) the decoder
returns owner `(word >>> 3) &&& 0xffff`, and a thin lock word whose owner
bit field holds thread id T (word = T <<< 3) resolves to owner T. -/
theorem lockOwner_thin_spec (mem : Mem) (lock T : Nat)
    (hshape : lock &&& LW_SHAPE_MASK = LW_SHAPE_THIN) (hT : T < 2 ^ 16) :
    lockOwnerOfWord mem lock = (lock >>> 3) &&& 0xffff ∧
    lockOwnerOfWord mem (T <<< 3) = T := by
  constructor
  · simp [lockOwnerOfWord, hshape, LW_LOCK_OWNER_SHIFT, LW_LOCK_OWNER_MASK]
  · have hshape2 : (T <<< 3) &&& LW_SHAPE_MASK = LW_SHAPE_THIN := by
      simp only [LW_SHAPE_MASK, LW_SHAPE_THIN, Nat.and_one_is_mod, Nat.shiftLeft_eq]
      omega
    have hshift : (T <<< 3) >>> 3 = T := by
      simp only [Nat.shiftLeft_eq, Nat.shiftRight_eq_div_pow]
      exact Nat.mul_div_cancel T (by norm_num)
    have hmask : T &&& 0xffff = T := by
      have h := Nat.and_pow_two_sub_one_eq_mod T 16
      norm_num at h
      rw [h]
      exact Nat.mod_eq_of_lt hT
    simp [lockOwnerOfWord, hshape2, LW_LOCK_OWNER_SHIFT, LW_LOCK_OWNER_MASK, hshift, hmask]

/-- C5 witness: the thin lock word 0x91a0 = 0x1234 <<< 3 resolves to
owner 0x1234. -/
theorem lockOwner_thin_spec_witness :
    lockOwnerOfWord zMem 0x91a0 = 0x1234 ∧ lockOwnerOfWord zMem (0x1234 <<< 3) = 0x1234 := by
  have h := lockOwner_thin_spec zMem 0x91a0 0x1234 (by decide) (by decide)
  exact ⟨h.1.trans (by decide), h.2⟩

/-- C6: two fat lock words (bit 0 = 1) that agree outside the 2-bit
hash-state field dereference the same monitor address and resolve to the
same owner; and a fat lock word whose monitor's owner field is null
resolves to no owner (`none`), not an error. -/
theorem fatLock_hashState_spec (mem : Mem) (w1 w2 obj : Nat)
    (h1 : w1 &&& LW_SHAPE_MASK ≠ LW_SHAPE_THIN)
    (h2 : w2 &&& LW_SHAPE_MASK ≠ LW_SHAPE_THIN)
    (hagree : w1 &&& ((2 ^ 32 - 1) ^^^ (LW_HASH_STATE_MASK <<< LW_HASH_STATE_SHIFT)) =
              w2 &&& ((2 ^ 32 - 1) ^^^ (LW_HASH_STATE_MASK <<< LW_HASH_STATE_SHIFT)))
    (hfat : (mem.objects obj).lock &&& LW_SHAPE_MASK ≠ LW_SHAPE_THIN)
    (hnoOwner : (mem.monitors (monitorAddrOfLock (mem.objects obj).lock)).owner = 0) :
    (monitorAddrOfLock w1 = monitorAddrOfLock w2 ∧
     lockOwnerOfWord mem w1 = lockOwnerOfWord mem w2) ∧
    (lockOwner mem obj = 0 ∧ ∀ fuel, getObjectLockHolder mem fuel obj = none) := by
  have haddr : monitorAddrOfLock w1 = monitorAddrOfLock w2 := by
    have hmask :
        ((2 ^ 32 - 1) ^^^ (LW_HASH_STATE_MASK <<< LW_HASH_STATE_SHIFT)) &&&
          ((2 ^ 32 - 1) ^^^ ((LW_HASH_STATE_MASK <<< LW_HASH_STATE_SHIFT) ||| LW_SHAPE_MASK)) =
        ((2 ^ 32 - 1) ^^^ ((LW_HASH_STATE_MASK <<< LW_HASH_STATE_SHIFT) ||| LW_SHAPE_MASK)) := by
      decide
    unfold monitorAddrOfLock
    rw [← hmask, ← Nat.and_assoc, ← Nat.and_assoc, hagree]
  have hown : lockOwner mem obj = 0 := by
    simp [lockOwner, lockOwnerOfWord, hfat, hnoOwner]
  refine ⟨⟨haddr, ?_⟩, hown, ?_⟩
  · simp [lockOwnerOfWord, h1, h2, haddr]
  · intro fuel
    simp [getObjectLockHolder, hown]

/-- C6 witness: the fat lock words 0x2001 and 0x2007 differ only in the
hash-state bits and both resolve to owner tid 7 through monitor 0x2000;
object 0x4000's fat lock word 0x5001 has a null-owner monitor and
resolves to no owner. -/
theorem fatLock_hashState_spec_witness :
    (monitorAddrOfLock 0x2001 = monitorAddrOfLock 0x2007 ∧
     lockOwnerOfWord c6Mem 0x2001 = lockOwnerOfWord c6Mem 0x2007) ∧
    (lockOwner c6Mem 0x4000 = 0 ∧ getObjectLockHolder c6Mem 5 0x4000 = none) := by
  have h := fatLock_hashState_spec c6Mem 0x2001 0x2007 0x4000
    (by decide) (by decide) (by decide) (by decide) (by decide)
  exact ⟨h.1, h.2.1, h.2.2 5⟩

/-- The reads of the `createCstrFromString` loop, expressed as a map over
the index range: the loop's moving pointer visits exactly the code units
at offsets `d, d+1, ..., d+n-1`. -/
theorem readU16s_eq_map (contents : Int → Nat) :
    ∀ (n : Nat) (d : Int),
      readU16s contents d n = (List.range n).map (fun i : Nat => contents (d + (i : Int))) := by
  intro n
  induction n with
  | zero => intro d; rfl
  | succ m ih =>
    intro d
    rw [readU16s, List.range_succ_eq_map, ih (d + 1)]
    simp only [List.map_cons, List.map_map, Nat.cast_zero, add_zero]
    refine congrArg₂ List.cons rfl ?_
    apply List.map_congr_left
    intro i _
    simp only [Function.comp_apply]
    congr 1
    push_cast
    ring

/-- C4: for every (offset, length, backing char array) triple with
`offset + length <= backing_array.length`, the string decoder returns
exactly the UTF-16 decoding of the `length` 16-bit code units of the
backing array starting at `offset`; when `offset + length` exceeds the
array length it fails with a BoundsError and produces no partial text. -/
theorem createCstr_bounds_spec (mem : Mem) (s : Nat) (hs : s ≠ 0) :
    ((mem.stringObjs s).offset + (mem.stringObjs s).count ≤
        (mem.arrays (mem.stringObjs s).value).length →
      createCstrFromString mem s =
        match utf16Decode ((List.range (mem.stringObjs s).count.toNat).map
            (fun i : Nat => (mem.arrays (mem.stringObjs s).value).contents
              ((mem.stringObjs s).offset + (i : Int)))) with
        | some text => Except.ok text
        | none => Except.error JbtError.unicodeError) ∧
    ((mem.arrays (mem.stringObjs s).value).length <
        (mem.stringObjs s).offset + (mem.stringObjs s).count →
      createCstrFromString mem s = Except.error JbtError.boundsError) := by
  constructor
  · intro hle
    unfold createCstrFromString
    rw [if_neg hs, if_pos hle, readU16s_eq_map]
  · intro hgt
    unfold createCstrFromString
    rw [if_neg hs, if_neg (by omega)]

/-- C4 witness: string 1 of `c4Mem` (offset 1, count 2 over a 4-element
array) decodes to "Hi"; string 2 (offset 2, count 3) violates the bound
and fails with BoundsError. -/
theorem createCstr_bounds_spec_witness :
    createCstrFromString c4Mem 1 = Except.ok "Hi" ∧
    createCstrFromString c4Mem 2 = Except.error JbtError.boundsError := by
  constructor
  · exact ((createCstr_bounds_spec c4Mem 1 (by decide)).1 (by decide)).trans (by rfl)
  · exact (createCstr_bounds_spec c4Mem 2 (by decide)).2 (by decide)

/-- C10: the `(a <Type>)` class description in the waiting annotation is
included exactly when the target object is non-null and its class is not
the registered java.lang.Class reference; when the class equals
classJavaLangClass the annotation omits the type but still prints the
object address and any owner suffix. -/
theorem waitMessage_type_condition (mem : Mem) (detail : String) (obj : Nat)
    (thr : Option Nat) (ty hbs : String)
    (hty : humanReadableTypeOfObj mem obj = some ty)
    (hhb : heldBySuffix mem thr = Except.ok hbs) :
    (obj ≠ 0 → (mem.objects obj).clazz ≠ mem.classJavaLangClass →
      waitMessage mem detail obj thr =
        Except.ok ("  - waiting " ++ detail ++ " <" ++ ptrStr obj ++ "> " ++
          ("(a " ++ ty ++ ")") ++ hbs ++ "\n")) ∧
    (obj = 0 ∨ (mem.objects obj).clazz = mem.classJavaLangClass →
      waitMessage mem detail obj thr =
        Except.ok ("  - waiting " ++ detail ++ " <" ++ ptrStr obj ++ "> " ++
          "" ++ hbs ++ "\n")) := by
  constructor
  · intro h0 hcl
    simp [waitMessage, waitMessageType, h0, hcl, hty, hhb, Bind.bind, Except.bind]
  · intro h
    have hcond : ¬(obj ≠ 0 ∧ (mem.objects obj).clazz ≠ mem.classJavaLangClass) := by
      rcases h with h | h
      · intro hc; exact hc.1 h
      · intro hc; exact hc.2 h
    simp [waitMessage, waitMessageType, hcond, hhb, Bind.bind, Except.bind]

/-- C10 witness: object 0x4800 (class com/example/Lock) gets a type
description; object 0x4C00, whose class is the registered
classJavaLangClass of `c8Mem`, gets none while its address still
prints. -/
theorem waitMessage_type_condition_witness :
    waitMessage c8Mem "on" 0x4800 none = Except.ok "  - waiting on <0x4800> (a com.example.Lock)\n" ∧
    waitMessage c8Mem "to lock" 0x4C00 none = Except.ok "  - waiting to lock <0x4c00> \n" := by
  constructor
  · exact ((waitMessage_type_condition c8Mem "on" 0x4800 none "com.example.Lock" ""
      (by rfl) (by rfl)).1 (by decide) (by decide)).trans (by rfl)
  · exact ((waitMessage_type_condition c8Mem "to lock" 0x4C00 none "java.lang.Class" ""
      (by rfl) (by rfl)).2 (Or.inr (by rfl))).trans (by rfl)

/-- C8: for a WAIT/TIMED_WAIT thread with a non-null waitMonitor whose
object is non-null, the first-frame annotation resolves the joined native
thread through the object's vmData field exactly when the object's class
equals the registered classJavaLangVMThread, and reports no joined thread
otherwise. -/
theorem waitAnnotation_join_spec (mem : Mem) (fuel t obj : Nat)
    (hst : threadStatus mem t = "WAIT" ∨ threadStatus mem t = "TIMED_WAIT")
    (hmon : (mem.threads t).waitMonitor ≠ 0)
    (hobj : obj = (mem.monitors (mem.threads t).waitMonitor).obj)
    (hobj0 : obj ≠ 0) :
    ((mem.objects obj).clazz = mem.classJavaLangVMThread → mem.vmData obj ≠ 0 →
      firstFrameLockInfo mem fuel t = waitMessage mem "on" obj (some (mem.vmData obj))) ∧
    ((mem.objects obj).clazz ≠ mem.classJavaLangVMThread →
      firstFrameLockInfo mem fuel t = waitMessage mem "on" obj none) := by
  constructor
  · intro hcl hvm
    simp [firstFrameLockInfo, hst, hmon, ← hobj, hobj0, hcl, threadFromThreadObject,
      hvm, Bind.bind, Except.bind, Except.map]
  · intro hcl
    simp [firstFrameLockInfo, hst, hmon, ← hobj, hobj0, hcl, Bind.bind, Except.bind]

/-- C8 witness: the WAIT-ing thread 100 of `c8Mem` parks on a VMThread
wrapper object, so its annotation carries the joined native thread 110;
thread 120 parks on a plain object, so no joined thread is reported. -/
theorem waitAnnotation_join_spec_witness :
    firstFrameLockInfo c8Mem 5 100 = waitMessage c8Mem "on" 0x4000 (some 110) ∧
    firstFrameLockInfo c8Mem 5 120 = waitMessage c8Mem "on" 0x4800 none := by
  constructor
  · exact (waitAnnotation_join_spec c8Mem 5 100 0x4000 (Or.inl (by rfl)) (by decide)
      (by rfl) (by decide)).1 (by rfl) (by decide)
  · exact (waitAnnotation_join_spec c8Mem 5 120 0x4800 (Or.inl (by rfl)) (by decide)
      (by rfl) (by decide)).2 (by decide)

/-- Unfolding lemma: at fuel 0 with a non-null frame pointer the fuelled
walk reports it is still running. -/
theorem stackLines_zero (mem : Mem) (tfuel t jfp : Nat) (first : Bool) (acc : String)
    (h : jfp ≠ 0) :
    stackLines mem tfuel t 0 jfp first acc = Except.error JbtError.outOfFuel := by
  simp only [stackLines]
  rw [if_neg h]

/-- Unfolding lemma: one iteration of the `while jfp:` loop on a non-null
frame pointer. -/
theorem stackLines_succ (mem : Mem) (tfuel t fuel jfp : Nat) (first : Bool) (acc : String)
    (h : jfp ≠ 0) :
    stackLines mem tfuel t (fuel + 1) jfp first acc =
      (if (mem.saveAreas jfp).method ≠ 0 then
        match frameLine mem (mem.saveAreas jfp).method with
        | none => Except.error JbtError.indexError
        | some line =>
          if first then
            match firstFrameLockInfo mem tfuel t with
            | .error e => Except.error e
            | .ok ann =>
              stackLines mem tfuel t fuel (mem.saveAreas jfp).prevFrame false (acc ++ line ++ ann)
          else
            stackLines mem tfuel t fuel (mem.saveAreas jfp).prevFrame false (acc ++ line)
      else Except.ok acc) := by
  conv_lhs => simp only [stackLines]
  rw [if_neg h]

/-- Unfolding lemma: one iteration of the all-threads loop on a non-null
thread address. -/
theorem allThreadsAux_succ (mem : Mem) (fuel lf addr : Nat) (acc : String)
    (h : addr ≠ 0) :
    allThreadsAux mem fuel (lf + 1) addr acc = (do
      let s ← threadStackTraceStr mem fuel fuel addr
      allThreadsAux mem fuel lf (mem.threads addr).next (acc ++ s ++ "\n")) := by
  conv_lhs => simp only [allThreadsAux]
  rw [if_neg h]

/-- C3 (failing input for the register-bound check): with instruction word
0x021d the extracted register index 2 equals the method's registersSize,
so it is not a valid register of the method, yet the resolver does not
fail with InvalidRegister — it reads the out-of-range frame slot and
returns it. -/
theorem extractMonitor_offByOne :
    (c3Mem.insns 800 >>> 8) = (c3Mem.methods 700).registersSize ∧
    extractMonitorEnterObject c3Mem 10 100 = Except.ok (4096, none) ∧
    extractMonitorEnterObject c3Mem 10 100 ≠ Except.error JbtError.invalidRegister :=
  ⟨by rfl, by rfl, by decide⟩

/-- C1 (counterexample to the containment half of the claim): in
`cxMemC1` thread "main" (address 100) is MONITOR-blocked on a wrong
instruction word, and the whole all-threads dump evaluates to the
WrongInstruction error — the healthy RUNNABLE thread "Worker" (address
110), which on its own dumps fine, is not produced. -/
theorem monitorError_aborts_dump_cx :
    allThreadsStackTrace cxMemC1 50 50 = Except.error JbtError.wrongInstruction ∧
    threadStackTraceStr cxMemC1 50 50 110 =
      Except.ok "\"Worker\" prio=5 tid=2 RUNNABLE\n  | sysTid=12 self=0x6e\n  at Main.work (Native method)\n" :=
  ⟨rfl, rfl⟩

/-- C1 (amended): for a MONITOR-state thread whose current instruction
word has a low byte different from 0x1d, the monitor resolution fails
with the WrongInstruction error, but the error is not contained: it
propagates out of the thread's block, so the thread's own dump (header
and stack trace lines) is aborted, and in all-threads mode the dumps of
the remaining threads are not produced either. -/
theorem monitorError_propagates (mem : Mem) (t : Nat) (ht : t ≠ 0)
    (hst : threadStatus mem t = "MONITOR")
    (hh : ∃ hdr, threadHeader mem t = Except.ok hdr)
    (hjfp : curFrame mem t ≠ 0)
    (hm : (mem.saveAreas (curFrame mem t)).method ≠ 0)
    (hline : ∃ line, frameLine mem (mem.saveAreas (curFrame mem t)).method = some line)
    (hpc : mem.insns (mem.saveAreas (curFrame mem t)).currentPc &&& 0xff ≠ 0x1d) :
    (∀ tfuel, extractMonitorEnterObject mem tfuel t = Except.error JbtError.wrongInstruction) ∧
    (∀ fuel tfuel,
      threadStackTraceStr mem (fuel + 1) tfuel t = Except.error JbtError.wrongInstruction) ∧
    (∀ fuel lfuel, mem.threadList = t →
      allThreadsStackTrace mem (fuel + 1) (lfuel + 1) = Except.error JbtError.wrongInstruction) := by
  obtain ⟨hdr, hh⟩ := hh
  obtain ⟨line, hline⟩ := hline
  have hext : ∀ tfuel,
      extractMonitorEnterObject mem tfuel t = Except.error JbtError.wrongInstruction := by
    intro tfuel
    unfold extractMonitorEnterObject
    rw [if_pos hpc]
  have hann : ∀ tfuel,
      firstFrameLockInfo mem tfuel t = Except.error JbtError.wrongInstruction := by
    intro tfuel
    unfold firstFrameLockInfo
    rw [hst, if_neg (by decide), if_pos (by decide), hext tfuel]
    rfl
  have hstack : ∀ fuel tfuel acc,
      stackLines mem tfuel t (fuel + 1) (curFrame mem t) true acc =
        Except.error JbtError.wrongInstruction := by
    intro fuel tfuel acc
    rw [stackLines_succ mem tfuel t fuel _ true acc hjfp, if_pos hm]
    simp only [hline]
    rw [if_pos trivial, hann tfuel]
  have hts : ∀ fuel tfuel,
      threadStackTraceStr mem (fuel + 1) tfuel t = Except.error JbtError.wrongInstruction := by
    intro fuel tfuel
    unfold threadStackTraceStr
    rw [hh]
    exact hstack fuel tfuel hdr
  refine ⟨hext, hts, ?_⟩
  intro fuel lfuel hl
  unfold allThreadsStackTrace
  rw [hl, allThreadsAux_succ mem (fuel + 1) lfuel t "" ht, hts fuel (fuel + 1)]
  rfl

/-- C1 witness: the amended propagation theorem applied to `cxMemC1` at
thread 100. -/
theorem monitorError_propagates_witness :
    threadStackTraceStr cxMemC1 50 50 100 = Except.error JbtError.wrongInstruction :=
  (monitorError_propagates cxMemC1 100 (by decide) (by rfl) ⟨_, by rfl⟩ (by decide)
    (by decide) ⟨_, by rfl⟩ (by decide)).2.1 49 50

/-- One step of the walk from frame 300 of the cycle in `cyc2Mem`: it
emits the trace line and moves to frame 320 with the same remaining
fuel. -/
theorem cyc2_step300 : ∀ (n tf : Nat) (first : Bool) (acc : String),
    stackLines cyc2Mem tf 100 (n + 1) 300 first acc =
      stackLines cyc2Mem tf 100 n 320 false
        (if first then acc ++ "  at M.r\n" ++ "" else acc ++ "  at M.r\n") := by
  intro n tf first acc
  rw [stackLines_succ _ _ _ _ _ _ _ (by decide)]
  cases first
  · rfl
  · rfl

/-- One step of the walk from frame 320 of the cycle in `cyc2Mem`: back
to frame 300. -/
theorem cyc2_step320 : ∀ (n tf : Nat) (first : Bool) (acc : String),
    stackLines cyc2Mem tf 100 (n + 1) 320 first acc =
      stackLines cyc2Mem tf 100 n 300 false
        (if first then acc ++ "  at M.r\n" ++ "" else acc ++ "  at M.r\n") := by
  intro n tf first acc
  rw [stackLines_succ _ _ _ _ _ _ _ (by decide)]
  cases first
  · rfl
  · rfl

/-- Starting from either frame of the 2-cycle, the walk exhausts any
amount of fuel: the state after two steps repeats, so no fuel value makes
it stop. -/
theorem cyc2_stackLines_diverges : ∀ (fuel tf : Nat) (first : Bool) (acc : String),
    stackLines cyc2Mem tf 100 fuel 300 first acc = Except.error JbtError.outOfFuel ∧
    stackLines cyc2Mem tf 100 fuel 320 first acc = Except.error JbtError.outOfFuel := by
  intro fuel
  induction fuel with
  | zero => intro tf first acc; exact ⟨rfl, rfl⟩
  | succ n ih =>
    intro tf first acc
    refine ⟨?_, ?_⟩
    · rw [cyc2_step300 n tf first acc]
      exact (ih tf false _).2
    · rw [cyc2_step320 n tf first acc]
      exact (ih tf false _).1

/-- C2 (counterexample): on the save-area chain of `cyc2Mem`, whose cycle
has length 2, granting the walk 64 iterations leaves it still running —
no bounded-walk guard fires, no CorruptStack-style truncation is
produced, and the thread's dump never completes. -/
theorem stackWalk_unbounded_cycle_cx :
    threadStackTraceStr cyc2Mem 64 64 100 = Except.error JbtError.outOfFuel := rfl

/-- C2 (amended): the stack walk imposes no frame bound and has no
CorruptStack error: on a save-area chain containing a cycle of length 2
the walk never terminates — for every fuel allowance the fuel-indexed
walk is still running when the fuel runs out, instead of truncating the
thread's frame list with an error. -/
theorem stackWalk_unbounded_cycle :
    ∀ fuel tfuel, threadStackTraceStr cyc2Mem fuel tfuel 100 = Except.error JbtError.outOfFuel := by
  intro fuel tfuel
  unfold threadStackTraceStr
  rw [show threadHeader cyc2Mem 100 =
    Except.ok "\"m\" prio=5 tid=1 RUNNABLE\n  | sysTid=11 self=0x64\n" from rfl]
  exact (cyc2_stackLines_diverges fuel tfuel true _).1

end Jbt
